import Mathlib

/-!
Verification of the Open vSwitch 1.4.0 userspace datapath core
(`lib/flow.c`, `lib/flow.h`, `lib/dpif-netdev.c`) as shipped in this
repository, against its natural-language specification.

The C code is shallowly embedded: structs become Lean structures, machine
integers become `Nat` with explicit `% 2 ^ w` where overflow matters, byte
buffers become `List Nat` (each element one byte), and fallible operations
return `Option`/`Except`.  Every definition is translated from the source
files under `lib/`; the few constants or helpers that live in repository
files not present here (`lib/packets.h`, `lib/hash.c`, `lib/dpif.h`,
`include/openvswitch/`) are marked as modelled from the spec.
-/

namespace OVS

/-- Serializes the low `w` bytes of `n` in big-endian order, mirroring how a
`w`-byte field of `struct flow` is laid out in memory for `memcmp`. -/
def natToBytesBE : Nat → Nat → List Nat
  | 0, _ => []
  | w + 1, n => natToBytesBE w (n / 256) ++ [n % 256]

/-- Reads a big-endian 16-bit value from two bytes. -/
def be16 (hi lo : Nat) : Nat := hi * 256 + lo

/-- Reads a big-endian 32-bit value from four bytes. -/
def be32 (b0 b1 b2 b3 : Nat) : Nat := ((b0 * 256 + b1) * 256 + b2) * 256 + b3

/-- The flow key, `struct flow` from `lib/flow.h`.  Multi-byte numeric fields
hold the numeric value of the field (serialized big-endian by
`flowSigBytes`); address fields hold their byte lists.  `reserved` is the
trailing padding (`uint8_t reserved[6]`). -/
structure Flow where
  tun_id : Nat
  ipv6_src : List Nat
  ipv6_dst : List Nat
  nd_target : List Nat
  priority : Nat
  regs : List Nat
  nw_src : Nat
  nw_dst : Nat
  ipv6_label : Nat
  in_port : Nat
  vlan_tci : Nat
  dl_type : Nat
  tp_src : Nat
  tp_dst : Nat
  dl_src : List Nat
  dl_dst : List Nat
  nw_proto : Nat
  nw_tos : Nat
  arp_sha : List Nat
  arp_tha : List Nat
  nw_ttl : Nat
  nw_frag : Nat
  reserved : List Nat
deriving DecidableEq

/-- Number of flow registers, `FLOW_N_REGS` from `lib/flow.h`. -/
def FLOW_N_REGS : Nat := 5

/-- Significant byte size of `struct flow`, `FLOW_SIG_SIZE` from
`lib/flow.h` (`110 + FLOW_N_REGS * 4 = 130`). -/
def FLOW_SIG_SIZE : Nat := 110 + FLOW_N_REGS * 4

/-- The significant prefix of `struct flow` as laid out in memory: every
field in declaration order, excluding the trailing `reserved` padding.
`flow_compare_3way`/`flow_equal`/`flow_hash` operate on exactly these
bytes. -/
def flowSigBytes (f : Flow) : List Nat :=
  natToBytesBE 8 f.tun_id ++ f.ipv6_src ++ f.ipv6_dst ++ f.nd_target ++
  natToBytesBE 4 f.priority ++
  ((List.range FLOW_N_REGS).map (fun i => natToBytesBE 4 (f.regs.getD i 0))).flatten ++
  natToBytesBE 4 f.nw_src ++ natToBytesBE 4 f.nw_dst ++
  natToBytesBE 4 f.ipv6_label ++
  natToBytesBE 2 f.in_port ++ natToBytesBE 2 f.vlan_tci ++
  natToBytesBE 2 f.dl_type ++ natToBytesBE 2 f.tp_src ++
  natToBytesBE 2 f.tp_dst ++
  f.dl_src ++ f.dl_dst ++
  natToBytesBE 1 f.nw_proto ++ natToBytesBE 1 f.nw_tos ++
  f.arp_sha ++ f.arp_tha ++
  natToBytesBE 1 f.nw_ttl ++ natToBytesBE 1 f.nw_frag

/-- The flow key equality from `lib/flow.h`: `flow_equal` is
`!memcmp(a, b, FLOW_SIG_SIZE)`, i.e. equality of the significant bytes. -/
def flow_equal (a b : Flow) : Bool := flowSigBytes a == flowSigBytes b

/-- Modelled from the spec: `hash_bytes` from `lib/hash.h` / `lib/hash.c`,
which is not under `src/`.  The spec only requires that the hash be a
function of the significant byte prefix and the basis ("hashing defined
over a fixed byte prefix"), so it is modelled as a mixing fold over the
bytes seeded with the basis. -/
def hash_bytes (bytes : List Nat) (basis : Nat) : Nat :=
  bytes.foldl (fun h b => ((h ^^^ b) * 16777619) % 2 ^ 32) basis

/-- The flow key hash from `lib/flow.h`: `flow_hash` is
`hash_bytes(flow, FLOW_SIG_SIZE, basis)`. -/
def flow_hash (f : Flow) (basis : Nat) : Nat := hash_bytes (flowSigBytes f) basis

theorem flowSigBytes_ignores_reserved (f : Flow) (pad : List Nat) :
    flowSigBytes { f with reserved := pad } = flowSigBytes f := rfl

/-! ## Wildcard masks (`struct flow_wildcards`, `lib/flow.h` / `lib/flow.c`) -/

/-- The wildcard-flag bit set covering all FWW bits, `FWW_ALL = (1 << 15) - 1`
from `lib/flow.h`. -/
def FWW_ALL : Nat := 2 ^ 15 - 1

/-- C complement of a 32-bit `flow_wildcards_t` value (`~w` on `unsigned
int`), as used by `flow_wildcards_has_extra`. -/
def cnot32 (w : Nat) : Nat := Nat.ldiff (2 ^ 32 - 1) w

/-- The wildcard structure, `struct flow_wildcards` from `lib/flow.h`.
IPv6 masks are 128-bit values; `wildcards` is the FWW flag-bit set;
the mask fields have a 1-bit in each significant (non-wildcarded) bit. -/
structure FlowWildcards where
  tun_id_mask : Nat
  wildcards : Nat
  reg_masks : List Nat
  nw_src_mask : Nat
  nw_dst_mask : Nat
  ipv6_src_mask : Nat
  ipv6_dst_mask : Nat
  vlan_tci_mask : Nat
  nw_frag_mask : Nat
  zeros : List Nat
deriving DecidableEq

/-- The catch-all constructor `flow_wildcards_init_catchall` from
`lib/flow.c`: all FWW bits set, every mask zero. -/
def flow_wildcards_init_catchall : FlowWildcards where
  tun_id_mask := 0
  wildcards := FWW_ALL
  reg_masks := List.replicate FLOW_N_REGS 0
  nw_src_mask := 0
  nw_dst_mask := 0
  ipv6_src_mask := 0
  ipv6_dst_mask := 0
  vlan_tci_mask := 0
  nw_frag_mask := 0
  zeros := List.replicate 5 0

/-- The exact-match constructor `flow_wildcards_init_exact` from
`lib/flow.c`: no FWW bits, every mask all-ones. -/
def flow_wildcards_init_exact : FlowWildcards where
  tun_id_mask := 2 ^ 64 - 1
  wildcards := 0
  reg_masks := List.replicate FLOW_N_REGS (2 ^ 32 - 1)
  nw_src_mask := 2 ^ 32 - 1
  nw_dst_mask := 2 ^ 32 - 1
  ipv6_src_mask := 2 ^ 128 - 1
  ipv6_dst_mask := 2 ^ 128 - 1
  vlan_tci_mask := 2 ^ 16 - 1
  nw_frag_mask := 2 ^ 8 - 1
  zeros := List.replicate 5 0

/-- The catch-all predicate `flow_wildcards_is_catchall` from `lib/flow.c`. -/
def flow_wildcards_is_catchall (wc : FlowWildcards) : Bool :=
  wc.wildcards == FWW_ALL &&
  wc.tun_id_mask == 0 &&
  wc.nw_src_mask == 0 &&
  wc.nw_dst_mask == 0 &&
  wc.vlan_tci_mask == 0 &&
  wc.ipv6_src_mask == 0 &&
  wc.ipv6_dst_mask == 0 &&
  wc.nw_frag_mask == 0 &&
  (List.range FLOW_N_REGS).all (fun i => wc.reg_masks.getD i 0 == 0)

/-- The exact-match predicate `flow_wildcards_is_exact` from `lib/flow.c`. -/
def flow_wildcards_is_exact (wc : FlowWildcards) : Bool :=
  wc.wildcards == 0 &&
  wc.tun_id_mask == 2 ^ 64 - 1 &&
  wc.nw_src_mask == 2 ^ 32 - 1 &&
  wc.nw_dst_mask == 2 ^ 32 - 1 &&
  wc.vlan_tci_mask == 2 ^ 16 - 1 &&
  wc.ipv6_src_mask == 2 ^ 128 - 1 &&
  wc.ipv6_dst_mask == 2 ^ 128 - 1 &&
  wc.nw_frag_mask == 2 ^ 8 - 1 &&
  (List.range FLOW_N_REGS).all (fun i => wc.reg_masks.getD i 0 == 2 ^ 32 - 1)

/-- The combination operation `flow_wildcards_combine(dst, src1, src2)` from
`lib/flow.c`.  The C function assigns into `dst` the OR of the FWW flag sets
and the AND of the `tun_id`, `nw_src`, `nw_dst`, IPv6, register and
`vlan_tci` masks; it does not assign `nw_frag_mask` (or the `zeros`
padding), which therefore keep whatever value `dst` held before the call. -/
def flow_wildcards_combine (dst src1 src2 : FlowWildcards) : FlowWildcards :=
  { dst with
    wildcards := src1.wildcards ||| src2.wildcards
    tun_id_mask := src1.tun_id_mask &&& src2.tun_id_mask
    nw_src_mask := src1.nw_src_mask &&& src2.nw_src_mask
    nw_dst_mask := src1.nw_dst_mask &&& src2.nw_dst_mask
    ipv6_src_mask := src1.ipv6_src_mask &&& src2.ipv6_src_mask
    ipv6_dst_mask := src1.ipv6_dst_mask &&& src2.ipv6_dst_mask
    reg_masks := (List.range FLOW_N_REGS).map
      (fun i => src1.reg_masks.getD i 0 &&& src2.reg_masks.getD i 0)
    vlan_tci_mask := src1.vlan_tci_mask &&& src2.vlan_tci_mask }

/-- The containment test `flow_wildcards_has_extra(a, b)` from `lib/flow.c`:
true when `a` wildcards at least one bit or field that `b` does not, per the
fields the C function actually inspects (`nw_frag_mask` is not among
them). -/
def flow_wildcards_has_extra (a b : FlowWildcards) : Bool :=
  (List.range FLOW_N_REGS).any
    (fun i => (a.reg_masks.getD i 0 &&& b.reg_masks.getD i 0) != b.reg_masks.getD i 0) ||
  ((a.ipv6_src_mask &&& b.ipv6_src_mask) != b.ipv6_src_mask) ||
  ((a.ipv6_dst_mask &&& b.ipv6_dst_mask) != b.ipv6_dst_mask) ||
  ((a.wildcards &&& cnot32 b.wildcards) != 0) ||
  ((a.tun_id_mask &&& b.tun_id_mask) != b.tun_id_mask) ||
  ((a.nw_src_mask &&& b.nw_src_mask) != b.nw_src_mask) ||
  ((a.nw_dst_mask &&& b.nw_dst_mask) != b.nw_dst_mask) ||
  ((a.vlan_tci_mask &&& b.vlan_tci_mask) != b.vlan_tci_mask)

/-! ## The netdev datapath (`lib/dpif-netdev.c`) -/

/-- Maximum number of ports, `MAX_PORTS` from `lib/dpif-netdev.c`. -/
def MAX_PORTS : Nat := 256

/-- Maximum number of flows in the flow table, `MAX_FLOWS` from
`lib/dpif-netdev.c`. -/
def MAX_FLOWS : Nat := 65536

/-- Number of upcall queues, `N_QUEUES` from `lib/dpif-netdev.c`. -/
def N_QUEUES : Nat := 2

/-- Maximum number of packets per upcall queue, `MAX_QUEUE_LEN` from
`lib/dpif-netdev.c`. -/
def MAX_QUEUE_LEN : Nat := 128

/-- Ring index mask, `QUEUE_MASK = MAX_QUEUE_LEN - 1` from
`lib/dpif-netdev.c`. -/
def QUEUE_MASK : Nat := MAX_QUEUE_LEN - 1

/-- Error kinds returned by the datapath operations; each constructor is the
errno constant the C code returns (`EINVAL`, `ENOENT`, `EEXIST`, `EFBIG`,
`ENOBUFS`). -/
inductive DpErr where
  | EINVAL
  | ENOENT
  | EEXIST
  | EFBIG
  | ENOBUFS
deriving DecidableEq

/-- The `TCP_FLAGS` macro from `lib/packets.h` (a repository file not under
`src/`; modelled from its standard definition `ntohs(tcp_ctl) & 0x003f`).
Network-order 16-bit fields are modelled throughout by their big-endian
numeric value, on which `ntohs` is the identity. -/
def TCP_FLAGS (tcp_ctl : Nat) : Nat := tcp_ctl &&& 63

/-- A flow-table entry, `struct dp_netdev_flow` from `lib/dpif-netdev.c`:
the key, the mutable statistics, and the serialized action blob. -/
structure DpNetdevFlow where
  key : Flow
  used : Nat
  packet_count : Nat
  byte_count : Nat
  tcp_ctl : Nat
  actions : List Nat
deriving DecidableEq

/-- The flow table (`struct hmap flow_table`), modelled as the list of
entries.  `dp_netdev_lookup_flow` iterates the entries with the key's hash
and compares with `flow_equal`; since `flow_equal` keys hash identically the
hash pre-filter does not change which entry is found, so lookup is modelled
as a scan with `flow_equal`. -/
abbrev FlowTable := List DpNetdevFlow

/-- The flow lookup `dp_netdev_lookup_flow` from `lib/dpif-netdev.c`. -/
def dp_netdev_lookup_flow (table : FlowTable) (key : Flow) : Option DpNetdevFlow :=
  table.find? (fun f => flow_equal f.key key)

/-- The caller-visible statistics record `struct dpif_flow_stats`
(from `lib/dpif.h`, filled by `get_dpif_flow_stats`). -/
structure DpifFlowStats where
  n_packets : Nat
  n_bytes : Nat
  used : Nat
  tcp_flags : Nat
deriving DecidableEq

/-- `get_dpif_flow_stats` from `lib/dpif-netdev.c`. -/
def get_dpif_flow_stats (flow : DpNetdevFlow) : DpifFlowStats where
  n_packets := flow.packet_count
  n_bytes := flow.byte_count
  used := flow.used
  tcp_flags := TCP_FLAGS flow.tcp_ctl

/-- The all-zero statistics record (`memset(stats, 0, sizeof *stats)`). -/
def zeroStats : DpifFlowStats := ⟨0, 0, 0, 0⟩

/-- `clear_stats` from `lib/dpif-netdev.c`. -/
def clear_stats (flow : DpNetdevFlow) : DpNetdevFlow :=
  { flow with used := 0, packet_count := 0, byte_count := 0, tcp_ctl := 0 }

/-- `add_flow` from `lib/dpif-netdev.c`: the new entry is `xzalloc`ed (all
statistics zero), gets a copy of the key and the given actions, and is
inserted into the table. -/
def add_flow (table : FlowTable) (key : Flow) (actions : List Nat) : FlowTable :=
  { key := key, used := 0, packet_count := 0, byte_count := 0, tcp_ctl := 0,
    actions := actions } :: table

/-- Updates the (first) entry found by `flow_equal`, modelling the C code's
in-place mutation through the pointer returned by
`dp_netdev_lookup_flow`. -/
def updateFlow (key : Flow) (upd : DpNetdevFlow → DpNetdevFlow) :
    FlowTable → FlowTable
  | [] => []
  | f :: rest =>
      if flow_equal f.key key then upd f :: rest
      else f :: updateFlow key upd rest

/-- Removes the (first) entry found by `flow_equal`, modelling
`dp_netdev_free_flow` on the pointer returned by
`dp_netdev_lookup_flow`. -/
def removeFlow (key : Flow) : FlowTable → FlowTable
  | [] => []
  | f :: rest => if flow_equal f.key key then rest else f :: removeFlow key rest

/-- The `DPIF_FP_*` flag bits of `enum dpif_flow_put_flags` (from
`lib/dpif.h`), modelled as one boolean per bit. -/
structure DpifFlowPutFlags where
  create : Bool
  modify : Bool
  zero_stats : Bool
deriving DecidableEq

/-- The put operation `dpif_netdev_flow_put` from `lib/dpif-netdev.c`,
modelled after the point where `dpif_netdev_flow_from_nlattrs` has
successfully decoded the key (decode failure returns `EINVAL` before any of
this logic runs; the claims assume a decodable key).  Returns the new table
and the statistics written through the caller's non-null `stats` pointer
(`none` when the C code leaves `*stats` unwritten). -/
def dpif_netdev_flow_put (flags : DpifFlowPutFlags) (key : Flow)
    (actions : List Nat) (table : FlowTable) :
    Except DpErr (FlowTable × Option DpifFlowStats) :=
  match dp_netdev_lookup_flow table key with
  | none =>
      if flags.create then
        if table.length < MAX_FLOWS then
          .ok (add_flow table key actions, some zeroStats)
        else
          .error .EFBIG
      else
        .error .ENOENT
  | some flow =>
      if flags.modify then
        let reported := get_dpif_flow_stats flow
        let table := updateFlow key
          (fun f =>
            let f := { f with actions := actions }
            if flags.zero_stats then clear_stats f else f) table
        .ok (table, some reported)
      else
        .error .EEXIST

/-- The delete operation `dpif_netdev_flow_del` from `lib/dpif-netdev.c`
(after key decode): returns the removed entry's final statistics, or
`ENOENT` if no entry matches. -/
def dpif_netdev_flow_del (key : Flow) (table : FlowTable) :
    Except DpErr (FlowTable × Option DpifFlowStats) :=
  match dp_netdev_lookup_flow table key with
  | some flow => .ok (removeFlow key table, some (get_dpif_flow_stats flow))
  | none => .error .ENOENT

/-- The flush operation `dp_netdev_flow_flush` from `lib/dpif-netdev.c`:
removes every entry. -/
def dp_netdev_flow_flush (_ : FlowTable) : FlowTable := []

/-- One flow-table operation of the put/delete/flush command surface, used
to state the capacity invariant. -/
inductive TableOp where
  | put (flags : DpifFlowPutFlags) (key : Flow) (actions : List Nat)
  | del (key : Flow)
  | flush

/-- Applies a table operation; a failing put/delete leaves the table
unchanged, exactly as the C code does. -/
def applyTableOp (table : FlowTable) : TableOp → FlowTable
  | .put flags key actions =>
      match dpif_netdev_flow_put flags key actions table with
      | .ok (t, _) => t
      | .error _ => table
  | .del key =>
      match dpif_netdev_flow_del key table with
      | .ok (t, _) => t
      | .error _ => table
  | .flush => dp_netdev_flow_flush table

/-- Applies a sequence of table operations in order. -/
def applyTableOps (ops : List TableOp) (table : FlowTable) : FlowTable :=
  ops.foldl applyTableOp table

/-- Creates each key in order with a create-only put, as the capacity test
scenario does; `none` if any put fails. -/
def putCreateSeq : List Flow → FlowTable → Option FlowTable
  | [], table => some table
  | key :: keys, table =>
      match dpif_netdev_flow_put ⟨true, false, false⟩ key [] table with
      | .ok (t, _) => putCreateSeq keys t
      | .error _ => none

/-! ## The Sample action (`dp_netdev_sample`, `lib/dpif-netdev.c`) -/

/-- One nested attribute of an `OVS_ACTION_ATTR_SAMPLE` action:
`OVS_SAMPLE_ATTR_PROBABILITY` carries a u32 threshold,
`OVS_SAMPLE_ATTR_ACTIONS` carries the nested sub-action list. -/
inductive SampleAttr where
  | probability (p : Nat)
  | actions
deriving DecidableEq

/-- The attribute walk of `dp_netdev_sample` from `lib/dpif-netdev.c`,
reduced to whether the nested sub-actions are executed: the loop returns
early (no execution) when the drawn uniform 32-bit random value is `>=` the
probability attribute's threshold, and otherwise falls through to execute
the sub-actions after the walk. -/
def dp_netdev_sample_executes (attrs : List SampleAttr) (drawn : Nat) : Bool :=
  match attrs with
  | [] => true
  | .probability p :: rest =>
      if drawn ≥ p then false else dp_netdev_sample_executes rest drawn
  | .actions :: rest => dp_netdev_sample_executes rest drawn

/-! ## Upcall queues (`struct dp_netdev_queue`, `lib/dpif-netdev.c`) -/

/-- An upcall record, `struct dpif_upcall`.  The serialized form of the key
(built by `odp_flow_key_from_flow`, `lib/odp-util.c`, not under `src/`) is
represented by the flow key itself; its exact byte encoding is irrelevant to
the queue mechanics. -/
structure Upcall where
  type : Nat
  packet : List Nat
  key : Flow
  userdata : Nat

/-- One bounded upcall ring, `struct dp_netdev_queue`: `MAX_QUEUE_LEN`
slots plus free-running 32-bit `head` and `tail` counters. -/
structure DpNetdevQueue where
  upcalls : List (Option Upcall)
  head : Nat
  tail : Nat

/-- An empty queue: all slots empty, `head = tail = 0` (as initialized by
`create_dp_netdev`). -/
def emptyQueue : DpNetdevQueue :=
  { upcalls := List.replicate MAX_QUEUE_LEN none, head := 0, tail := 0 }

/-- 32-bit unsigned subtraction `a - b` with wraparound, as C computes
`q->head - q->tail` on `unsigned int`. -/
def u32sub (a b : Nat) : Nat := (a % 2 ^ 32 + 2 ^ 32 - b % 2 ^ 32) % 2 ^ 32

/-- A port, `struct dp_netdev_port` from `lib/dpif-netdev.c`; the `struct
netdev` device handle is represented by its name. -/
structure DpNetdevPort where
  port_no : Nat
  netdev : String
  internal : Bool
deriving DecidableEq

/-- Modelled from the spec: `OVSP_LOCAL`, the number of the local internal
port, from `include/openvswitch/datapath-protocol.h` (not under `src/`); the
spec describes it as port number 0. -/
def OVSP_LOCAL : Nat := 0

/-- A datapath instance, `struct dp_netdev` from `lib/dpif-netdev.c`.  The
`ports` array plus `port_list` pair is modelled as one list queried by port
number. -/
structure DpNetdev where
  name : String
  open_cnt : Nat
  destroyed : Bool
  queues : List DpNetdevQueue
  flow_table : FlowTable
  n_hit : Nat
  n_missed : Nat
  n_lost : Nat
  ports : List DpNetdevPort
  serial : Nat

/-- The non-blocking upcall enqueue `dp_netdev_output_userspace` from
`lib/dpif-netdev.c`: on a full ring (`head - tail >= MAX_QUEUE_LEN` in
32-bit arithmetic) it bumps `n_lost` and returns `ENOBUFS` without touching
the ring; otherwise it stores the new record at slot `head & QUEUE_MASK` and
increments `head`.  Returns the errno (if any) and the updated datapath. -/
def dp_netdev_output_userspace (dp : DpNetdev) (packet : List Nat)
    (queue_no : Nat) (flow : Flow) (arg : Nat) : Option DpErr × DpNetdev :=
  let q := dp.queues.getD queue_no emptyQueue
  if MAX_QUEUE_LEN ≤ u32sub q.head q.tail then
    (some .ENOBUFS, { dp with n_lost := dp.n_lost + 1 })
  else
    let upcall : Upcall :=
      { type := queue_no, packet := packet, key := flow, userdata := arg }
    let q2 : DpNetdevQueue :=
      { q with upcalls := q.upcalls.set (q.head &&& QUEUE_MASK) (some upcall),
               head := (q.head + 1) % 2 ^ 32 }
    (none, { dp with queues := dp.queues.set queue_no q2 })

/-- `get_port_by_number` from `lib/dpif-netdev.c`: `EINVAL` for an
out-of-range number, `ENOENT` when no port has that number. -/
def get_port_by_number (dp : DpNetdev) (port_no : Nat) :
    Except DpErr DpNetdevPort :=
  if port_no < MAX_PORTS then
    match dp.ports.find? (fun p => p.port_no == port_no) with
    | some p => .ok p
    | none => .error .ENOENT
  else
    .error .EINVAL

/-- `do_add_port` from `lib/dpif-netdev.c`.  The device-layer calls
(`netdev_open`, `netdev_listen`, `netdev_turn_flags_on`) are external
collaborators; their combined outcome is the `devErr` argument, and every
device failure path returns before the datapath is modified, exactly as in
the source.  An unsupported `type` string is rejected with `EINVAL`. -/
def do_add_port (dp : DpNetdev) (devname : String) (type : String)
    (port_no : Nat) (devErr : Option DpErr) : Except DpErr DpNetdev :=
  let internal? : Option Bool :=
    if type == "" || type == "system" || type == "dummy" then some false
    else if type == "internal" then some true
    else none
  match internal? with
  | none => .error .EINVAL
  | some internal =>
      match devErr with
      | some e => .error e
      | none =>
          .ok { dp with
                ports := dp.ports ++
                  [{ port_no := port_no, netdev := devname, internal := internal }]
                serial := dp.serial + 1 }

/-- `dpif_netdev_port_add` from `lib/dpif-netdev.c`: picks the lowest free
port number and adds the device there; `EFBIG` when all `MAX_PORTS` numbers
are taken.  Returns the updated datapath and the assigned number. -/
def dpif_netdev_port_add (dp : DpNetdev) (devname : String) (type : String)
    (devErr : Option DpErr) : Except DpErr (DpNetdev × Nat) :=
  match (List.range MAX_PORTS).find?
      (fun n => (dp.ports.find? (fun p => p.port_no == n)).isNone) with
  | some port_no => (do_add_port dp devname type port_no devErr).map (·, port_no)
  | none => .error .EFBIG

/-- `do_del_port` from `lib/dpif-netdev.c`: looks the port up by number and
unlinks it from the port set, bumping the serial. -/
def do_del_port (dp : DpNetdev) (port_no : Nat) : Except DpErr DpNetdev :=
  match get_port_by_number dp port_no with
  | .error e => .error e
  | .ok _ =>
      .ok { dp with
            ports := dp.ports.eraseP (fun p => p.port_no == port_no)
            serial := dp.serial + 1 }

/-- `dpif_netdev_port_del` from `lib/dpif-netdev.c`:
`port_no == OVSP_LOCAL ? EINVAL : do_del_port(dp, port_no)`. -/
def dpif_netdev_port_del (dp : DpNetdev) (port_no : Nat) :
    Except DpErr DpNetdev :=
  if port_no == OVSP_LOCAL then .error .EINVAL else do_del_port dp port_no

/-- `create_dp_netdev` from `lib/dpif-netdev.c`: a zeroed instance whose
queues are empty and whose only port is the local internal port, added by
`do_add_port(dp, name, "internal", OVSP_LOCAL)`; if that fails the instance
is freed and the error returned. -/
def create_dp_netdev (name : String) (devErr : Option DpErr) :
    Except DpErr DpNetdev :=
  do_add_port
    { name := name, open_cnt := 0, destroyed := false,
      queues := List.replicate N_QUEUES emptyQueue, flow_table := [],
      n_hit := 0, n_missed := 0, n_lost := 0, ports := [], serial := 0 }
    name "internal" OVSP_LOCAL devErr

/-- One operation of the port add/delete command surface. -/
inductive PortOp where
  | add (devname type : String) (devErr : Option DpErr)
  | del (port_no : Nat)

/-- Applies a port operation; a failing operation leaves the datapath
unchanged. -/
def applyPortOp (dp : DpNetdev) : PortOp → DpNetdev
  | .add devname type devErr =>
      match dpif_netdev_port_add dp devname type devErr with
      | .ok (dp2, _) => dp2
      | .error _ => dp
  | .del port_no =>
      match dpif_netdev_port_del dp port_no with
      | .ok dp2 => dp2
      | .error _ => dp

/-- Applies a sequence of port operations in order. -/
def applyPortOps (ops : List PortOp) (dp : DpNetdev) : DpNetdev :=
  ops.foldl applyPortOp dp

/-- Whether the datapath contains its local port (the port numbered
`OVSP_LOCAL`). -/
def hasLocalPort (dp : DpNetdev) : Bool :=
  (dp.ports.find? (fun p => p.port_no == OVSP_LOCAL)).isSome

/-! ## The flow extractor (`flow_extract` and helpers, `lib/flow.c`)

Packets are byte lists; an `ofpbuf` being pulled is modelled by the
remaining suffix.  Protocol constants that live in `lib/packets.h` (a
repository file not under `src/`) or in the system headers
`netinet/in.h`, `netinet/ip6.h`, `netinet/icmp6.h` carry their standard
values. -/

/-- Reads byte `i` of a buffer (0 past the end, as no modelled read is ever
past a checked length). -/
def byte (b : List Nat) (i : Nat) : Nat := b.getD i 0

/-- Offset of the suffix `b` inside the original packet. -/
def off (packet b : List Nat) : Nat := packet.length - b.length

def ETH_HEADER_LEN : Nat := 14
def ETH_ADDR_LEN : Nat := 6
def ETH_TYPE_MIN : Nat := 0x600
def ETH_TYPE_IP : Nat := 0x0800
def ETH_TYPE_ARP : Nat := 0x0806
def ETH_TYPE_VLAN : Nat := 0x8100
def ETH_TYPE_IPV6 : Nat := 0x86dd

/-- The sentinel Ethernet type for typeless 802.2 frames,
`FLOW_DL_TYPE_NONE` from `lib/flow.h`. -/
def FLOW_DL_TYPE_NONE : Nat := 0x5ff

/-- The VLAN presence/CFI bit, `VLAN_CFI` from `lib/packets.h`. -/
def VLAN_CFI : Nat := 0x1000

/-- Fragment flag bits from `lib/flow.h`. -/
def FLOW_NW_FRAG_ANY : Nat := 1

def FLOW_NW_FRAG_LATER : Nat := 2

def IPPROTO_HOPOPTS : Nat := 0
def IPPROTO_ICMP : Nat := 1
def IPPROTO_TCP : Nat := 6
def IPPROTO_UDP : Nat := 17
def IPPROTO_ROUTING : Nat := 43
def IPPROTO_FRAGMENT : Nat := 44
def IPPROTO_AH : Nat := 51
def IPPROTO_ICMPV6 : Nat := 58
def IPPROTO_NONE : Nat := 59
def IPPROTO_DSTOPTS : Nat := 60

def IP_HEADER_LEN : Nat := 20
def TCP_HEADER_LEN : Nat := 20
def UDP_HEADER_LEN : Nat := 8
def ICMP_HEADER_LEN : Nat := 8
def ARP_ETH_HEADER_LEN : Nat := 28

def ND_NEIGHBOR_SOLICIT : Nat := 135
def ND_NEIGHBOR_ADVERT : Nat := 136
def ND_OPT_SOURCE_LINKADDR : Nat := 1
def ND_OPT_TARGET_LINKADDR : Nat := 2

/-- The all-zero flow key, as produced by `memset(flow, 0, sizeof *flow)` at
the top of `flow_extract`. -/
def zeroFlow : Flow where
  tun_id := 0
  ipv6_src := List.replicate 16 0
  ipv6_dst := List.replicate 16 0
  nd_target := List.replicate 16 0
  priority := 0
  regs := List.replicate FLOW_N_REGS 0
  nw_src := 0
  nw_dst := 0
  ipv6_label := 0
  in_port := 0
  vlan_tci := 0
  dl_type := 0
  tp_src := 0
  tp_dst := 0
  dl_src := List.replicate 6 0
  dl_dst := List.replicate 6 0
  nw_proto := 0
  nw_tos := 0
  arp_sha := List.replicate 6 0
  arp_tha := List.replicate 6 0
  nw_ttl := 0
  nw_frag := 0
  reserved := List.replicate 6 0

/-- Result of `flow_extract`: the key plus the layer offsets the function
stores into the packet (`l2` is always offset 0 and is omitted; `l3`, `l4`,
`l7` are `none` where the C code leaves the pointer NULL). -/
structure ExtractResult where
  flow : Flow
  l3 : Option Nat
  l4 : Option Nat
  l7 : Option Nat

/-- `parse_vlan` from `lib/flow.c`: consumes one 802.1Q tag if at least the
tag plus a following EtherType remain, storing the TCI with the CFI/presence
bit set. -/
def parse_vlan (b : List Nat) (flow : Flow) : Flow × List Nat :=
  if b.length ≥ 6 then
    ({ flow with vlan_tci := be16 (byte b 2) (byte b 3) ||| VLAN_CFI }, b.drop 4)
  else
    (flow, b)

/-- `parse_ethertype` from `lib/flow.c`: reads the 16-bit type; values below
`ETH_TYPE_MIN` are 802.3 lengths, in which case an 802.2 LLC/SNAP header is
recognized (DSAP/SSAP `0xaa`, control `0x03`, zero OUI) and its encapsulated
type returned, and anything else becomes `FLOW_DL_TYPE_NONE`. -/
def parse_ethertype (b : List Nat) : Nat × List Nat :=
  let proto := be16 (byte b 0) (byte b 1)
  let b := b.drop 2
  if proto ≥ ETH_TYPE_MIN then
    (proto, b)
  else if b.length < 8 then
    (FLOW_DL_TYPE_NONE, b)
  else if byte b 0 == 0xaa && byte b 1 == 0xaa && byte b 2 == 3 &&
          byte b 3 == 0 && byte b 4 == 0 && byte b 5 == 0 then
    (be16 (byte b 6) (byte b 7), b.drop 8)
  else
    (FLOW_DL_TYPE_NONE, b)

/-- `pull_ip` from `lib/flow.c`: requires 20 bytes, validates the IHL field
(at least 20 bytes and within the buffer), returns the header view and the
buffer advanced past the header. -/
def pull_ip (b : List Nat) : Option (List Nat × List Nat) :=
  if b.length ≥ IP_HEADER_LEN then
    let ip_len := (byte b 0 &&& 15) * 4
    if ip_len ≥ IP_HEADER_LEN ∧ b.length ≥ ip_len then
      some (b, b.drop ip_len)
    else
      none
  else
    none

/-- `parse_tcp` (with `pull_tcp`) from `lib/flow.c`: validates the data
offset, stores the ports and advances past the TCP header; on failure the
flow and buffer are untouched and no L7 offset is produced. -/
def parse_tcp (b : List Nat) (flow : Flow) : Flow × Option (List Nat) :=
  if b.length ≥ TCP_HEADER_LEN then
    let tcp_len := (byte b 12 >>> 4) * 4
    if tcp_len ≥ TCP_HEADER_LEN ∧ b.length ≥ tcp_len then
      ({ flow with tp_src := be16 (byte b 0) (byte b 1),
                   tp_dst := be16 (byte b 2) (byte b 3) },
       some (b.drop tcp_len))
    else
      (flow, none)
  else
    (flow, none)

/-- `parse_udp` (with `pull_udp`) from `lib/flow.c`. -/
def parse_udp (b : List Nat) (flow : Flow) : Flow × Option (List Nat) :=
  if b.length ≥ UDP_HEADER_LEN then
    ({ flow with tp_src := be16 (byte b 0) (byte b 1),
                 tp_dst := be16 (byte b 2) (byte b 3) },
     some (b.drop UDP_HEADER_LEN))
  else
    (flow, none)

/-- Whether a 6-byte hardware address is all zeroes (`eth_addr_is_zero`). -/
def eth_addr_is_zero (addr : List Nat) : Bool := addr.all (· == 0)

/-- The ICMPv6 ND rollback of `parse_icmpv6`: the `invalid` label resets
every ND-derived field. -/
def ndInvalid (flow : Flow) : Flow :=
  { flow with nd_target := List.replicate 16 0,
              arp_sha := List.replicate 6 0,
              arp_tha := List.replicate 6 0 }

/-- The ND option walk of `parse_icmpv6` from `lib/flow.c`: options are
multiples of 8 bytes; a zero or overlong length, or a duplicate
source/target link-layer address option, rolls back all ND fields and
fails. -/
def parse_nd_opts (b : List Nat) (flow : Flow) : Flow × List Nat × Bool :=
  if _h8 : b.length < 8 then
    (flow, b, true)
  else
    let opt_len := byte b 1 * 8
    if _hov : opt_len = 0 ∨ opt_len > b.length then
      (ndInvalid flow, b, false)
    else
      let step : Option Flow :=
        if byte b 0 == ND_OPT_SOURCE_LINKADDR && opt_len == 8 then
          if eth_addr_is_zero flow.arp_sha then
            some { flow with arp_sha := (b.drop 2).take ETH_ADDR_LEN }
          else
            none
        else if byte b 0 == ND_OPT_TARGET_LINKADDR && opt_len == 8 then
          if eth_addr_is_zero flow.arp_tha then
            some { flow with arp_tha := (b.drop 2).take ETH_ADDR_LEN }
          else
            none
        else
          some flow
      match step with
      | none => (ndInvalid flow, b, false)
      | some flow => parse_nd_opts (b.drop opt_len) flow
termination_by b.length
decreasing_by
  simp only [List.length_drop]
  omega

/-- `parse_icmpv6` from `lib/flow.c`: stores type/code in the port fields;
for Neighbor Solicitation/Advertisement with code 0, pulls the 16-byte
target and walks the options. -/
def parse_icmpv6 (b : List Nat) (flow : Flow) : Flow × List Nat × Bool :=
  if b.length < 8 then
    (flow, b, false)
  else
    let icmp6_type := byte b 0
    let icmp6_code := byte b 1
    let b := b.drop 8
    let flow := { flow with tp_src := icmp6_type, tp_dst := icmp6_code }
    if icmp6_code = 0 ∧
        (icmp6_type = ND_NEIGHBOR_SOLICIT ∨ icmp6_type = ND_NEIGHBOR_ADVERT) then
      if b.length < 16 then
        (flow, b, false)
      else
        parse_nd_opts (b.drop 16) { flow with nd_target := b.take 16 }
    else
      (flow, b, true)

/-- The extension-header walk of `parse_ipv6` from `lib/flow.c`.  Returns
the updated flow and `some` remaining buffer on normal exit (the break that
assigns `nw_proto`), or the flow as mutated so far and `none` for the
`EINVAL` returns. -/
def parse_ipv6_loop (nexthdr : Nat) (flow : Flow) (b : List Nat) :
    Flow × Option (List Nat) :=
  if nexthdr ≠ IPPROTO_HOPOPTS ∧ nexthdr ≠ IPPROTO_ROUTING ∧
      nexthdr ≠ IPPROTO_DSTOPTS ∧ nexthdr ≠ IPPROTO_AH ∧
      nexthdr ≠ IPPROTO_FRAGMENT then
    ({ flow with nw_proto := nexthdr }, some b)
  else if h8 : b.length < 8 then
    (flow, none)
  else if nexthdr = IPPROTO_HOPOPTS ∨ nexthdr = IPPROTO_ROUTING ∨
      nexthdr = IPPROTO_DSTOPTS then
    let pull := (byte b 1 + 1) * 8
    if b.length < pull then (flow, none)
    else parse_ipv6_loop (byte b 0) flow (b.drop pull)
  else if nexthdr = IPPROTO_AH then
    let pull := (byte b 1 + 2) * 4
    if b.length < pull then (flow, none)
    else parse_ipv6_loop (byte b 0) flow (b.drop pull)
  else
    let flow := { flow with nw_frag := FLOW_NW_FRAG_ANY }
    if byte b 2 ≠ 0 ∨ byte b 3 &&& 0xf8 ≠ 0 then
      ({ flow with nw_frag := FLOW_NW_FRAG_ANY ||| FLOW_NW_FRAG_LATER,
                   nw_proto := IPPROTO_FRAGMENT },
       some (b.drop 8))
    else
      parse_ipv6_loop (byte b 0) flow (b.drop 8)
termination_by b.length
decreasing_by
  all_goals simp only [List.length_drop]
  all_goals omega

/-- Whether the extension-header walk of `parse_ipv6`, started at
`nexthdr` over buffer `b`, reaches a fragment header with a nonzero
fragment offset (a later fragment).  Mirrors `parse_ipv6_loop` case for
case. -/
def walkFindsLaterFrag (nexthdr : Nat) (b : List Nat) : Bool :=
  if nexthdr ≠ IPPROTO_HOPOPTS ∧ nexthdr ≠ IPPROTO_ROUTING ∧
      nexthdr ≠ IPPROTO_DSTOPTS ∧ nexthdr ≠ IPPROTO_AH ∧
      nexthdr ≠ IPPROTO_FRAGMENT then
    false
  else if h8 : b.length < 8 then
    false
  else if nexthdr = IPPROTO_HOPOPTS ∨ nexthdr = IPPROTO_ROUTING ∨
      nexthdr = IPPROTO_DSTOPTS then
    let pull := (byte b 1 + 1) * 8
    if b.length < pull then false
    else walkFindsLaterFrag (byte b 0) (b.drop pull)
  else if nexthdr = IPPROTO_AH then
    let pull := (byte b 1 + 2) * 4
    if b.length < pull then false
    else walkFindsLaterFrag (byte b 0) (b.drop pull)
  else
    if byte b 2 ≠ 0 ∨ byte b 3 &&& 0xf8 ≠ 0 then true
    else walkFindsLaterFrag (byte b 0) (b.drop 8)
termination_by b.length
decreasing_by
  all_goals simp only [List.length_drop]
  all_goals omega

/-- `parse_ipv6` from `lib/flow.c`: consumes the 40-byte base header, fills
addresses, traffic class, label, hop limit, presets `nw_proto` to
`IPPROTO_NONE`, then walks the extension headers. -/
def parse_ipv6 (b : List Nat) (flow : Flow) : Flow × Option (List Nat) :=
  if b.length < 40 then
    (flow, none)
  else
    let tc_flow := be32 (byte b 0) (byte b 1) (byte b 2) (byte b 3)
    let flow := { flow with
      ipv6_src := (b.drop 8).take 16
      ipv6_dst := (b.drop 24).take 16
      nw_tos := (tc_flow >>> 20) % 256
      ipv6_label := tc_flow &&& 0xfffff
      nw_ttl := byte b 7
      nw_proto := IPPROTO_NONE }
    parse_ipv6_loop (byte b 6) flow (b.drop 40)

/-- The `ETH_TYPE_IP` arm of `flow_extract`'s dispatch on the Ethernet type
(`lib/flow.c`), split out as its own definition for proof modularity;
`b` is the buffer positioned at L3 and `l3` its offset in `packet`. -/
def flow_extract_ip (packet b : List Nat) (flow : Flow) (l3 : Nat) :
    ExtractResult :=
  match pull_ip b with
  | some (nh, b4) =>
      let l4 := off packet b4
      let flow := { flow with
        nw_src := be32 (byte nh 12) (byte nh 13) (byte nh 14) (byte nh 15)
        nw_dst := be32 (byte nh 16) (byte nh 17) (byte nh 18) (byte nh 19)
        nw_proto := byte nh 9
        nw_tos := byte nh 1 }
      let frag_off := be16 (byte nh 6) (byte nh 7)
      let flow :=
        if frag_off &&& 0x3fff ≠ 0 then
          { flow with nw_frag :=
              if frag_off &&& 0x1fff ≠ 0 then
                FLOW_NW_FRAG_ANY ||| FLOW_NW_FRAG_LATER
              else
                FLOW_NW_FRAG_ANY }
        else
          flow
      let flow := { flow with nw_ttl := byte nh 8 }
      if frag_off &&& 0x1fff = 0 then
        if flow.nw_proto = IPPROTO_TCP then
          match parse_tcp b4 flow with
          | (flow, some rest) =>
              { flow := flow, l3 := some l3, l4 := some l4,
                l7 := some (off packet rest) }
          | (flow, none) =>
              { flow := flow, l3 := some l3, l4 := some l4, l7 := none }
        else if flow.nw_proto = IPPROTO_UDP then
          match parse_udp b4 flow with
          | (flow, some rest) =>
              { flow := flow, l3 := some l3, l4 := some l4,
                l7 := some (off packet rest) }
          | (flow, none) =>
              { flow := flow, l3 := some l3, l4 := some l4, l7 := none }
        else if flow.nw_proto = IPPROTO_ICMP then
          if b4.length ≥ ICMP_HEADER_LEN then
            { flow := { flow with tp_src := byte b4 0, tp_dst := byte b4 1 },
              l3 := some l3, l4 := some l4,
              l7 := some (off packet (b4.drop ICMP_HEADER_LEN)) }
          else
            { flow := flow, l3 := some l3, l4 := some l4, l7 := none }
        else
          { flow := flow, l3 := some l3, l4 := some l4, l7 := none }
      else
        { flow := flow, l3 := some l3, l4 := some l4, l7 := none }
  | none =>
      { flow := flow, l3 := some l3, l4 := none, l7 := none }

/-- The `ETH_TYPE_IPV6` arm of `flow_extract`'s dispatch (`lib/flow.c`). -/
def flow_extract_ipv6 (packet b : List Nat) (flow : Flow) (l3 : Nat) :
    ExtractResult :=
  match parse_ipv6 b flow with
  | (flow, none) =>
      { flow := flow, l3 := some l3, l4 := none, l7 := none }
  | (flow, some b4) =>
      let l4 := off packet b4
      if flow.nw_proto = IPPROTO_TCP then
        match parse_tcp b4 flow with
        | (flow, some rest) =>
            { flow := flow, l3 := some l3, l4 := some l4,
              l7 := some (off packet rest) }
        | (flow, none) =>
            { flow := flow, l3 := some l3, l4 := some l4, l7 := none }
      else if flow.nw_proto = IPPROTO_UDP then
        match parse_udp b4 flow with
        | (flow, some rest) =>
            { flow := flow, l3 := some l3, l4 := some l4,
              l7 := some (off packet rest) }
        | (flow, none) =>
            { flow := flow, l3 := some l3, l4 := some l4, l7 := none }
      else if flow.nw_proto = IPPROTO_ICMPV6 then
        match parse_icmpv6 b4 flow with
        | (flow, rest, true) =>
            { flow := flow, l3 := some l3, l4 := some l4,
              l7 := some (off packet rest) }
        | (flow, _, false) =>
            { flow := flow, l3 := some l3, l4 := some l4, l7 := none }
      else
        { flow := flow, l3 := some l3, l4 := some l4, l7 := none }

/-- The `ETH_TYPE_ARP` arm of `flow_extract`'s dispatch (`lib/flow.c`). -/
def flow_extract_arp (b : List Nat) (flow : Flow) (l3 : Nat) :
    ExtractResult :=
  if b.length ≥ ARP_ETH_HEADER_LEN ∧ byte b 0 = 0 ∧ byte b 1 = 1 ∧
      byte b 2 = 8 ∧ byte b 3 = 0 ∧ byte b 4 = ETH_ADDR_LEN ∧
      byte b 5 = 4 then
    let ar_op := be16 (byte b 6) (byte b 7)
    let flow := if ar_op ≤ 0xff then { flow with nw_proto := ar_op } else flow
    let flow :=
      if flow.nw_proto = 1 ∨ flow.nw_proto = 2 then
        { flow with
          nw_src := be32 (byte b 14) (byte b 15) (byte b 16) (byte b 17)
          nw_dst := be32 (byte b 24) (byte b 25) (byte b 26) (byte b 27)
          arp_sha := (b.drop 8).take ETH_ADDR_LEN
          arp_tha := (b.drop 18).take ETH_ADDR_LEN }
      else
        flow
    { flow := flow, l3 := some l3, l4 := none, l7 := none }
  else
    { flow := flow, l3 := some l3, l4 := none, l7 := none }

/-- `flow_extract` from `lib/flow.c`.  Arguments follow the C parameter
order (`packet, priority, tun_id, ofp_in_port`); the three network-layer
dispatch arms are the definitions above. -/
def flow_extract (packet : List Nat) (priority tun_id in_port : Nat) :
    ExtractResult :=
  let flow := { zeroFlow with tun_id := tun_id, in_port := in_port,
                              priority := priority }
  if packet.length < ETH_HEADER_LEN then
    { flow := flow, l3 := none, l4 := none, l7 := none }
  else
    let flow := { flow with dl_dst := packet.take 6,
                            dl_src := (packet.drop 6).take 6 }
    let b := packet.drop 12
    let vb :=
      if byte packet 12 == 0x81 && byte packet 13 == 0x00 then
        parse_vlan b flow
      else
        (flow, b)
    let flow := vb.1
    let eb := parse_ethertype vb.2
    let flow := { flow with dl_type := eb.1 }
    let b := eb.2
    let l3 := off packet b
    if flow.dl_type = ETH_TYPE_IP then
      flow_extract_ip packet b flow l3
    else if flow.dl_type = ETH_TYPE_IPV6 then
      flow_extract_ipv6 packet b flow l3
    else if flow.dl_type = ETH_TYPE_ARP then
      flow_extract_arp b flow l3
    else
      { flow := flow, l3 := some l3, l4 := none, l7 := none }

/-! ## The per-port packet input hook (`dp_netdev_port_input`) -/

/-- Modelled from the spec: `DPIF_UC_MISS`, the queue index of the
flow-miss upcall class, from `enum dpif_upcall_type` in `lib/dpif.h` (not
under `src/`); the spec describes two queues classified by reason with the
miss class first. -/
def DPIF_UC_MISS : Nat := 0

/-- Modelled from the spec: `DPIF_UC_ACTION`, the queue index of the
explicit userspace-action upcall class, from `lib/dpif.h` (not under
`src/`). -/
def DPIF_UC_ACTION : Nat := 1

/-- `dp_netdev_flow_used` from `lib/dpif-netdev.c`: stamps the entry with
the current time, bumps the packet and byte counters, and ORs in the TCP
control word (read at the packet's L4 offset) for IPv4 TCP keys. -/
def dp_netdev_flow_used (flow : DpNetdevFlow) (key : Flow)
    (packet : List Nat) (l4 : Option Nat) (now : Nat) : DpNetdevFlow :=
  let flow := { flow with used := now,
                          packet_count := flow.packet_count + 1,
                          byte_count := flow.byte_count + packet.length }
  if key.dl_type = ETH_TYPE_IP ∧ key.nw_proto = IPPROTO_TCP then
    let l4 := l4.getD 0
    { flow with tcp_ctl :=
        flow.tcp_ctl ||| be16 (byte packet (l4 + 12)) (byte packet (l4 + 13)) }
  else
    flow

/-- The type of the action executor `dp_netdev_execute_actions` as it acts
on the datapath state: it receives the datapath, the packet, the extracted
key and the entry's serialized actions.  Its internals (output, VLAN edits,
set-field, sampling, userspace upcalls) are irrelevant to the guard clause
verified here, so the hook is parameterized over it. -/
abbrev ExecActions := DpNetdev → List Nat → Flow → List Nat → DpNetdev

/-- `dp_netdev_port_input` from `lib/dpif-netdev.c`: packets shorter than an
Ethernet header are ignored outright; otherwise the key is extracted and
looked up, a hit updates the entry statistics, runs the actions and bumps
`n_hit`, and a miss bumps `n_missed` and enqueues a miss-class upcall. -/
def dp_netdev_port_input (execActions : ExecActions) (now : Nat)
    (dp : DpNetdev) (port_no : Nat) (packet : List Nat) : DpNetdev :=
  if packet.length < ETH_HEADER_LEN then
    dp
  else
    let r := flow_extract packet 0 0 port_no
    let key := r.flow
    match dp_netdev_lookup_flow dp.flow_table key with
    | some flow =>
        let table2 :=
          updateFlow key (fun f => dp_netdev_flow_used f key packet r.l4 now)
            dp.flow_table
        let dp := { dp with flow_table := table2 }
        let dp := execActions dp packet key flow.actions
        { dp with n_hit := dp.n_hit + 1 }
    | none =>
        let dp := { dp with n_missed := dp.n_missed + 1 }
        (dp_netdev_output_userspace dp packet DPIF_UC_MISS key 0).2

/-! ## Concrete fixtures used by witnesses -/

/-- A concrete flow key (all-zero). -/
def keyA : Flow := zeroFlow

/-- A concrete flow key distinct from `keyA`. -/
def keyB : Flow := { zeroFlow with tun_id := 1 }

/-- A concrete flow key distinct from `keyA` and `keyB`. -/
def keyC : Flow := { zeroFlow with tun_id := 2 }

/-- A concrete flow-table entry with key `keyA`. -/
def entryA : DpNetdevFlow :=
  { key := keyA, used := 3, packet_count := 4, byte_count := 5, tcp_ctl := 2,
    actions := [9] }

/-- A concrete datapath with no flows, no ports and empty queues. -/
def sampleDp : DpNetdev :=
  { name := "dp0", open_cnt := 1, destroyed := false,
    queues := List.replicate N_QUEUES emptyQueue, flow_table := [],
    n_hit := 0, n_missed := 0, n_lost := 0, ports := [], serial := 0 }

/-- A ring that holds `MAX_QUEUE_LEN` pending records (`head - tail = 128`). -/
def fullQueue : DpNetdevQueue := { emptyQueue with head := MAX_QUEUE_LEN }

/-- A datapath whose miss queue is full. -/
def dpQFull : DpNetdev := { sampleDp with queues := [fullQueue, emptyQueue] }

/-- A concrete datapath holding only its local internal port. -/
def dpLocal : DpNetdev :=
  { sampleDp with
    ports := [{ port_no := OVSP_LOCAL, netdev := "dp0", internal := true }] }

/-- A wildcard structure that differs from catch-all only in the
fragmentation-bits mask. -/
def fragOnlyWc : FlowWildcards :=
  { flow_wildcards_init_catchall with nw_frag_mask := 255 }

/-! ## General-purpose lemmas -/

theorem land_self (a : Nat) : a &&& a = a := by
  apply Nat.eq_of_testBit_eq
  intro i
  simp [Nat.testBit_land]

theorem land_ldiff_self (a m : Nat) : a &&& Nat.ldiff m a = 0 := by
  apply Nat.eq_of_testBit_eq
  intro i
  simp only [Nat.testBit_land, Nat.testBit_ldiff, Nat.zero_testBit]
  cases a.testBit i <;> simp

theorem land_cnot32_self (a : Nat) : a &&& cnot32 a = 0 :=
  land_ldiff_self a (2 ^ 32 - 1)

theorem land_127_eq_mod (n : Nat) : n &&& 127 = n % 128 := by
  apply Nat.eq_of_testBit_eq
  intro i
  have h : (127 : Nat) = 2 ^ 7 - 1 := by norm_num
  rw [h, Nat.testBit_land, Nat.testBit_two_pow_sub_one]
  have h2 : (128 : Nat) = 2 ^ 7 := by norm_num
  rw [h2, Nat.testBit_mod_two_pow]
  cases hb : n.testBit i <;> simp [hb, Bool.and_comm]

/-! ## Claim theorems -/

/-- C10: a packet shorter than the Ethernet header (14 bytes) makes
`dp_netdev_port_input` return with no state change at all: the flow table,
the hit/miss/lost counters and the upcall queues of the datapath are exactly
as before (indeed the whole datapath value is unchanged), for any action
executor and any clock value. -/
theorem dp_netdev_port_input_short_packet (execActions : ExecActions)
    (now : Nat) (dp : DpNetdev) (port_no : Nat) (packet : List Nat)
    (h : packet.length < ETH_HEADER_LEN) :
    dp_netdev_port_input execActions now dp port_no packet = dp ∧
    (dp_netdev_port_input execActions now dp port_no packet).flow_table =
      dp.flow_table ∧
    (dp_netdev_port_input execActions now dp port_no packet).n_hit = dp.n_hit ∧
    (dp_netdev_port_input execActions now dp port_no packet).n_missed =
      dp.n_missed ∧
    (dp_netdev_port_input execActions now dp port_no packet).n_lost =
      dp.n_lost ∧
    (dp_netdev_port_input execActions now dp port_no packet).queues =
      dp.queues := by
  have he : dp_netdev_port_input execActions now dp port_no packet = dp := by
    unfold dp_netdev_port_input
    rw [if_pos h]
  exact ⟨he, by rw [he], by rw [he], by rw [he], by rw [he], by rw [he]⟩

/-- Witness for C10 at a concrete 3-byte packet and concrete datapath. -/
theorem dp_netdev_port_input_short_packet_witness :
    dp_netdev_port_input (fun d _ _ _ => d) 0 sampleDp 0 [1, 2, 3] = sampleDp :=
  (dp_netdev_port_input_short_packet (fun d _ _ _ => d) 0 sampleDp 0 [1, 2, 3]
    (by decide)).1

/-- C7: flow-key equality and hashing are functions of only the significant
prefix: `flow_equal` keys hash identically for every basis, and changing
only the trailing padding bytes (`reserved`) changes neither equality nor
the hash. -/
theorem flow_equal_hash_consistent :
    (∀ (k1 k2 : Flow) (basis : Nat), flow_equal k1 k2 = true →
      flow_hash k1 basis = flow_hash k2 basis) ∧
    (∀ (k : Flow) (pad : List Nat) (basis : Nat),
      flow_equal { k with reserved := pad } k = true ∧
      flow_hash { k with reserved := pad } basis = flow_hash k basis) := by
  constructor
  · intro k1 k2 basis h
    have hs : flowSigBytes k1 = flowSigBytes k2 := by
      simpa [flow_equal] using h
    simp [flow_hash, hs]
  · intro k pad basis
    refine ⟨?_, ?_⟩
    · simp [flow_equal, flowSigBytes_ignores_reserved]
    · simp [flow_hash, flowSigBytes_ignores_reserved]

/-- Witness for C7 at two concrete keys differing only in padding. -/
theorem flow_equal_hash_consistent_witness :
    flow_hash { zeroFlow with reserved := [9, 9, 9, 9, 9, 9] } 5 =
      flow_hash zeroFlow 5 :=
  flow_equal_hash_consistent.1 { zeroFlow with reserved := [9, 9, 9, 9, 9, 9] }
    zeroFlow 5 (by decide)

/-- C3 counterexample: with the maximum threshold `2 ^ 32 - 1` the
sub-actions do NOT execute for the drawn value `2 ^ 32 - 1`, because the
source skips when `random_uint32() >= probability`; this refutes the claim
that the maximum threshold makes the sub-actions execute for every drawn
value. -/
theorem dp_netdev_sample_max_threshold_counterexample :
    dp_netdev_sample_executes
      [SampleAttr.probability (2 ^ 32 - 1), SampleAttr.actions]
      (2 ^ 32 - 1) = false := by
  decide

/-- C3 (amended): the Sample action executes its sub-actions exactly when
the drawn value is strictly below the threshold; with threshold 0 they never
execute, and with the maximum threshold `2 ^ 32 - 1` they execute for every
32-bit drawn value except `2 ^ 32 - 1` itself. -/
theorem dp_netdev_sample_executes_iff (p drawn : Nat) :
    (dp_netdev_sample_executes
        [SampleAttr.probability p, SampleAttr.actions] drawn = true ↔
      drawn < p) ∧
    dp_netdev_sample_executes
      [SampleAttr.probability 0, SampleAttr.actions] drawn = false ∧
    (drawn < 2 ^ 32 →
      (dp_netdev_sample_executes
          [SampleAttr.probability (2 ^ 32 - 1), SampleAttr.actions] drawn =
        true ↔ drawn ≠ 2 ^ 32 - 1)) := by
  refine ⟨?_, ?_, ?_⟩
  · simp only [dp_netdev_sample_executes]
    split_ifs with hge
    · simp
      omega
    · simp
      omega
  · simp [dp_netdev_sample_executes]
  · intro hlt
    simp only [dp_netdev_sample_executes]
    split_ifs with hge
    · simp
      omega
    · simp
      omega

/-- Witness for C3 at a concrete draw below the maximum threshold. -/
theorem dp_netdev_sample_executes_iff_witness :
    dp_netdev_sample_executes
      [SampleAttr.probability (2 ^ 32 - 1), SampleAttr.actions] 7 = true :=
  ((dp_netdev_sample_executes_iff (2 ^ 32 - 1) 7).2.2 (by decide)).mpr
    (by decide)

/-- C4: evaluation of `flow_wildcards_combine` showing the divergence: every
field the source assigns does follow the OR-of-flag-sets / AND-of-masks law,
but the fragmentation-bits mask is never assigned and keeps the destination
structure's previous value, so with a previously catch-all destination and
two exact-match sources the combined `nw_frag_mask` is 0 instead of the
claimed `255 &&& 255`. -/
theorem flow_wildcards_combine_nw_frag_mask_bug :
    (∀ d a b : FlowWildcards,
      (flow_wildcards_combine d a b).wildcards = a.wildcards ||| b.wildcards ∧
      (flow_wildcards_combine d a b).tun_id_mask =
        a.tun_id_mask &&& b.tun_id_mask ∧
      (flow_wildcards_combine d a b).nw_src_mask =
        a.nw_src_mask &&& b.nw_src_mask ∧
      (flow_wildcards_combine d a b).nw_dst_mask =
        a.nw_dst_mask &&& b.nw_dst_mask ∧
      (flow_wildcards_combine d a b).ipv6_src_mask =
        a.ipv6_src_mask &&& b.ipv6_src_mask ∧
      (flow_wildcards_combine d a b).ipv6_dst_mask =
        a.ipv6_dst_mask &&& b.ipv6_dst_mask ∧
      (flow_wildcards_combine d a b).vlan_tci_mask =
        a.vlan_tci_mask &&& b.vlan_tci_mask ∧
      (flow_wildcards_combine d a b).reg_masks = (List.range FLOW_N_REGS).map
        (fun i => a.reg_masks.getD i 0 &&& b.reg_masks.getD i 0) ∧
      (flow_wildcards_combine d a b).nw_frag_mask = d.nw_frag_mask) ∧
    (flow_wildcards_combine flow_wildcards_init_catchall
        flow_wildcards_init_exact flow_wildcards_init_exact).nw_frag_mask ≠
      flow_wildcards_init_exact.nw_frag_mask &&&
        flow_wildcards_init_exact.nw_frag_mask := by
  constructor
  · exact fun d a b => ⟨rfl, rfl, rfl, rfl, rfl, rfl, rfl, rfl, rfl⟩
  · intro h
    rw [land_self] at h
    exact absurd h (by decide)

/-- C5: evaluation showing that `flow_wildcards_has_extra` never inspects
`nw_frag_mask`: the structure `fragOnlyWc` (catch-all except that its
fragmentation-bits mask is exact) is not catch-all, yet
`has_extra(catchall, fragOnlyWc)` is false, contradicting the claim (and the
function's own documentation); the claim's second half, `has_extra(A, A)`
always false, does hold. -/
theorem flow_wildcards_has_extra_nw_frag_mask_bug :
    flow_wildcards_is_catchall fragOnlyWc = false ∧
    flow_wildcards_has_extra flow_wildcards_init_catchall fragOnlyWc = false ∧
    (∀ a : FlowWildcards, flow_wildcards_has_extra a a = false) := by
  refine ⟨by decide, ?_, ?_⟩
  · simp only [flow_wildcards_has_extra]
    have e1 : fragOnlyWc.wildcards = flow_wildcards_init_catchall.wildcards :=
      rfl
    have h1 : flow_wildcards_init_catchall.wildcards &&&
        cnot32 fragOnlyWc.wildcards = 0 := by
      rw [e1]
      exact land_cnot32_self flow_wildcards_init_catchall.wildcards
    rw [h1]
    decide
  · intro a
    simp [flow_wildcards_has_extra, cnot32, land_ldiff_self, land_self]

/-! ## Flow-table lemmas -/

theorem flow_equal_refl (k : Flow) : flow_equal k k = true := by
  simp [flow_equal]

theorem lookup_cons (f : DpNetdevFlow) (rest : FlowTable) (key : Flow) :
    dp_netdev_lookup_flow (f :: rest) key =
      if flow_equal f.key key then some f
      else dp_netdev_lookup_flow rest key := by
  by_cases hf : flow_equal f.key key = true
  · rw [if_pos hf]
    exact List.find?_cons_of_pos _ hf
  · rw [if_neg hf]
    exact List.find?_cons_of_neg _ hf

theorem lookup_updateFlow (key : Flow) (upd : DpNetdevFlow → DpNetdevFlow)
    (hk : ∀ g, (upd g).key = g.key) :
    ∀ (table : FlowTable) (flow : DpNetdevFlow),
      dp_netdev_lookup_flow table key = some flow →
      dp_netdev_lookup_flow (updateFlow key upd table) key = some (upd flow)
  | [], flow => by simp [dp_netdev_lookup_flow]
  | f :: rest, flow => by
      intro h
      rw [lookup_cons] at h
      by_cases hf : flow_equal f.key key = true
      · rw [if_pos hf] at h
        cases h
        simp only [updateFlow, if_pos hf]
        rw [lookup_cons, if_pos (by rw [hk]; exact hf)]
      · rw [if_neg hf] at h
        have ih := lookup_updateFlow key upd hk rest flow h
        simp only [updateFlow, if_neg hf]
        rw [lookup_cons, if_neg hf]
        exact ih

theorem length_updateFlow (key : Flow) (upd : DpNetdevFlow → DpNetdevFlow) :
    ∀ table : FlowTable, (updateFlow key upd table).length = table.length
  | [] => rfl
  | f :: rest => by
      have ih := length_updateFlow key upd rest
      by_cases hf : flow_equal f.key key = true <;>
        simp [updateFlow, hf, ih]

theorem length_removeFlow (key : Flow) :
    ∀ table : FlowTable, (removeFlow key table).length ≤ table.length
  | [] => Nat.le_refl _
  | f :: rest => by
      have ih := length_removeFlow key rest
      by_cases hf : flow_equal f.key key = true <;>
        simp [removeFlow, hf] <;> omega

/-- C1: semantics of the flow put operation for a decodable key: modify-only
on an absent key fails with `ENOENT` (NotFound); create-only on a present
key fails with `EEXIST` (AlreadyExists); create on an absent key at capacity
fails with `EFBIG` (TableFull); a successful create installs an entry with
all-zero statistics and reports zero statistics; a successful modify reports
the pre-modification statistics and, when the zero-stats flag is also given,
clears the entry's statistics after reporting them. -/
theorem dpif_netdev_flow_put_semantics (flags : DpifFlowPutFlags) (key : Flow)
    (actions : List Nat) (table : FlowTable) :
    (dp_netdev_lookup_flow table key = none → flags.create = false →
      flags.modify = true →
      dpif_netdev_flow_put flags key actions table = .error .ENOENT) ∧
    (∀ flow, dp_netdev_lookup_flow table key = some flow →
      flags.create = true → flags.modify = false →
      dpif_netdev_flow_put flags key actions table = .error .EEXIST) ∧
    (dp_netdev_lookup_flow table key = none → flags.create = true →
      MAX_FLOWS ≤ table.length →
      dpif_netdev_flow_put flags key actions table = .error .EFBIG) ∧
    (dp_netdev_lookup_flow table key = none → flags.create = true →
      table.length < MAX_FLOWS →
      dpif_netdev_flow_put flags key actions table =
        .ok (add_flow table key actions, some zeroStats) ∧
      dp_netdev_lookup_flow (add_flow table key actions) key =
        some { key := key, used := 0, packet_count := 0, byte_count := 0,
               tcp_ctl := 0, actions := actions }) ∧
    (∀ flow, dp_netdev_lookup_flow table key = some flow →
      flags.modify = true →
      ∃ t2, dpif_netdev_flow_put flags key actions table =
          .ok (t2, some (get_dpif_flow_stats flow)) ∧
        (flags.zero_stats = true →
          dp_netdev_lookup_flow t2 key =
            some (clear_stats { flow with actions := actions }))) := by
  refine ⟨?_, ?_, ?_, ?_, ?_⟩
  · intro h hc _
    simp [dpif_netdev_flow_put, h, hc]
  · intro flow h _ hm
    simp [dpif_netdev_flow_put, h, hm]
  · intro h hc hlen
    simp [dpif_netdev_flow_put, h, hc]
    omega
  · intro h hc hlen
    refine ⟨by simp [dpif_netdev_flow_put, h, hc, hlen], ?_⟩
    simp [add_flow, dp_netdev_lookup_flow, List.find?, flow_equal_refl]
  · intro flow h hm
    refine ⟨updateFlow key
      (fun f =>
        let f := { f with actions := actions }
        if flags.zero_stats then clear_stats f else f) table, ?_, ?_⟩
    · simp [dpif_netdev_flow_put, h, hm]
    · intro hz
      have hk : ∀ g : DpNetdevFlow,
          ((fun f =>
            let f := { f with actions := actions }
            if flags.zero_stats then clear_stats f else f) g).key = g.key := by
        intro g
        by_cases hzs : flags.zero_stats = true <;> simp [hzs, clear_stats]
      have := lookup_updateFlow key _ hk table flow h
      simpa [hz] using this

/-- Witness for C1: the five put outcomes at concrete keys and tables (the
full-table case uses a table of `MAX_FLOWS` identical entries). -/
theorem dpif_netdev_flow_put_semantics_witness :
    dpif_netdev_flow_put ⟨false, true, false⟩ keyA [] [] = .error .ENOENT ∧
    dpif_netdev_flow_put ⟨true, false, false⟩ keyA [] [entryA] =
      .error .EEXIST ∧
    dpif_netdev_flow_put ⟨true, false, false⟩ keyB []
      (List.replicate MAX_FLOWS entryA) = .error .EFBIG ∧
    dpif_netdev_flow_put ⟨true, false, false⟩ keyA [7] [] =
      .ok (add_flow [] keyA [7], some zeroStats) ∧
    (∃ t2, dpif_netdev_flow_put ⟨false, true, true⟩ keyA [8] [entryA] =
        .ok (t2, some (get_dpif_flow_stats entryA)) ∧
      dp_netdev_lookup_flow t2 keyA =
        some (clear_stats { entryA with actions := [8] })) := by
  have hrep : dp_netdev_lookup_flow (List.replicate MAX_FLOWS entryA) keyB =
      none := by
    have : ∀ n, dp_netdev_lookup_flow (List.replicate n entryA) keyB = none := by
      intro n
      induction n with
      | zero => rfl
      | succ n ih =>
          simpa [dp_netdev_lookup_flow, List.replicate_succ, List.find?,
            show flow_equal entryA.key keyB = false by decide]
            using ih
    exact this MAX_FLOWS
  refine ⟨?_, ?_, ?_, ?_, ?_⟩
  · exact (dpif_netdev_flow_put_semantics ⟨false, true, false⟩ keyA [] []).1
      rfl rfl rfl
  · exact (dpif_netdev_flow_put_semantics ⟨true, false, false⟩ keyA []
      [entryA]).2.1 entryA (by decide) rfl rfl
  · exact (dpif_netdev_flow_put_semantics ⟨true, false, false⟩ keyB []
      (List.replicate MAX_FLOWS entryA)).2.2.1 hrep rfl
      (by simp [List.length_replicate])
  · exact ((dpif_netdev_flow_put_semantics ⟨true, false, false⟩ keyA [7]
      []).2.2.2.1 rfl rfl (by decide)).1
  · obtain ⟨t2, h1, h2⟩ := (dpif_netdev_flow_put_semantics ⟨false, true, true⟩
      keyA [8] [entryA]).2.2.2.2 entryA (by decide) rfl
    exact ⟨t2, h1, h2 rfl⟩

/-! ## Capacity lemmas -/

theorem putCreateSeq_ok :
    ∀ (keys : List Flow) (t : FlowTable),
      keys.Pairwise (fun a b => flow_equal a b = false) →
      (∀ k ∈ keys, dp_netdev_lookup_flow t k = none) →
      t.length + keys.length ≤ MAX_FLOWS →
      ∃ t2, putCreateSeq keys t = some t2 ∧
        t2.length = t.length + keys.length
  | [], t => by
      intro _ _ _
      exact ⟨t, rfl, by simp⟩
  | k :: ks, t => by
      intro hpw habs hlen
      rw [List.pairwise_cons] at hpw
      have hlc : (k :: ks).length = ks.length + 1 := by simp
      have habs_k : dp_netdev_lookup_flow t k = none := habs k (by simp)
      have hlt : t.length < MAX_FLOWS := by omega
      have hput : dpif_netdev_flow_put ⟨true, false, false⟩ k [] t =
          .ok (add_flow t k [], some zeroStats) := by
        simp [dpif_netdev_flow_put, habs_k, hlt]
      have habs2 : ∀ k2 ∈ ks, dp_netdev_lookup_flow (add_flow t k []) k2 =
          none := by
        intro k2 hk2
        show dp_netdev_lookup_flow (_ :: t) k2 = none
        rw [lookup_cons, if_neg]
        · exact habs k2 (by simp [hk2])
        · simp [hpw.1 k2 hk2]
      have hla : (add_flow t k []).length = t.length + 1 := by simp [add_flow]
      obtain ⟨t2, hseq, hl2⟩ := putCreateSeq_ok ks (add_flow t k [])
        hpw.2 habs2 (by omega)
      refine ⟨t2, ?_, ?_⟩
      · simp only [putCreateSeq, hput]
        exact hseq
      · omega

theorem put_ok_length (flags : DpifFlowPutFlags) (key : Flow)
    (actions : List Nat) (t t2 : FlowTable) (s : Option DpifFlowStats)
    (h : dpif_netdev_flow_put flags key actions t = .ok (t2, s)) :
    (t2.length = t.length + 1 ∧ t.length < MAX_FLOWS) ∨
      t2.length = t.length := by
  cases hl : dp_netdev_lookup_flow t key with
  | none =>
      simp only [dpif_netdev_flow_put, hl] at h
      split_ifs at h with hc hcap
      · simp only [Except.ok.injEq, Prod.mk.injEq] at h
        refine Or.inl ⟨?_, hcap⟩
        rw [← h.1]
        simp [add_flow]
      all_goals simp at h
  | some flow =>
      simp only [dpif_netdev_flow_put, hl] at h
      split_ifs at h with hm hz
      · simp only [Except.ok.injEq, Prod.mk.injEq] at h
        refine Or.inr ?_
        rw [← h.1]
        exact length_updateFlow _ _ t
      · simp only [Except.ok.injEq, Prod.mk.injEq] at h
        refine Or.inr ?_
        rw [← h.1]
        exact length_updateFlow _ _ t
      all_goals simp at h

theorem applyTableOp_capacity (t : FlowTable) (op : TableOp)
    (h : t.length ≤ MAX_FLOWS) : (applyTableOp t op).length ≤ MAX_FLOWS := by
  cases op with
  | put flags key actions =>
      simp only [applyTableOp]
      cases hp : dpif_netdev_flow_put flags key actions t with
      | ok pair =>
          obtain ⟨t2, s⟩ := pair
          show t2.length ≤ MAX_FLOWS
          rcases put_ok_length flags key actions t t2 s hp with ⟨h1, h2⟩ | h1 <;>
            omega
      | error e => exact h
  | del key =>
      simp only [applyTableOp]
      cases hd : dpif_netdev_flow_del key t with
      | ok pair =>
          obtain ⟨t2, s⟩ := pair
          show t2.length ≤ MAX_FLOWS
          have ht2 : t2 = removeFlow key t := by
            cases hl : dp_netdev_lookup_flow t key with
            | none => simp [dpif_netdev_flow_del, hl] at hd
            | some flow =>
                simp only [dpif_netdev_flow_del, hl, Except.ok.injEq,
                  Prod.mk.injEq] at hd
                exact hd.1.symm
          rw [ht2]
          exact Nat.le_trans (length_removeFlow key t) h
      | error e => exact h
  | flush =>
      simp [applyTableOp, dp_netdev_flow_flush]

theorem lookup_replicate_entryA_keyB :
    ∀ n : Nat, dp_netdev_lookup_flow (List.replicate n entryA) keyB = none := by
  intro n
  induction n with
  | zero => rfl
  | succ n ih =>
      rw [List.replicate_succ, lookup_cons,
        if_neg (by simp [show flow_equal entryA.key keyB = false by decide])]
      exact ih

/-- C2: the flow table never exceeds `MAX_FLOWS = 65536` entries: creating
any list of pairwise-distinct keys of length at most `MAX_FLOWS` from the
empty table succeeds and yields exactly that many entries (so `MAX_FLOWS`
distinct creates succeed); a create with any further key on a table at (or
beyond) capacity fails with `EFBIG` (TableFull); and every sequence of
put/delete/flush operations preserves `length ≤ MAX_FLOWS`. -/
theorem flow_table_capacity :
    (∀ keys : List Flow, keys.Pairwise (fun a b => flow_equal a b = false) →
      keys.length ≤ MAX_FLOWS →
      ∃ t, putCreateSeq keys [] = some t ∧ t.length = keys.length) ∧
    (∀ (flags : DpifFlowPutFlags) (key : Flow) (actions : List Nat)
        (table : FlowTable), flags.create = true →
      dp_netdev_lookup_flow table key = none → MAX_FLOWS ≤ table.length →
      dpif_netdev_flow_put flags key actions table = .error .EFBIG) ∧
    (∀ (ops : List TableOp) (table : FlowTable), table.length ≤ MAX_FLOWS →
      (applyTableOps ops table).length ≤ MAX_FLOWS) := by
  refine ⟨?_, ?_, ?_⟩
  · intro keys hpw hlen
    obtain ⟨t, h1, h2⟩ := putCreateSeq_ok keys [] hpw (fun k _ => rfl)
      (by simp only [List.length_nil, Nat.zero_add]
          exact hlen)
    exact ⟨t, h1, by simpa using h2⟩
  · intro flags key actions table hc habs hlen
    simp [dpif_netdev_flow_put, habs, hc]
    omega
  · intro ops
    induction ops with
    | nil => intro table h; simpa [applyTableOps] using h
    | cons op rest ih =>
        intro table h
        have h1 := applyTableOp_capacity table op h
        simpa [applyTableOps] using ih (applyTableOp table op) h1

/-- Witness for C2: two distinct concrete keys created from empty; `EFBIG`
on a concrete full table; the invariant on a concrete operation list. -/
theorem flow_table_capacity_witness :
    (∃ t, putCreateSeq [keyB, keyC] [] = some t ∧ t.length = 2) ∧
    dpif_netdev_flow_put ⟨true, false, false⟩ keyB []
      (List.replicate MAX_FLOWS entryA) = .error .EFBIG ∧
    (applyTableOps [TableOp.flush, TableOp.del keyA] []).length ≤
      MAX_FLOWS := by
  refine ⟨?_, ?_, ?_⟩
  · obtain ⟨t, h1, h2⟩ := flow_table_capacity.1 [keyB, keyC]
      (by simp [List.pairwise_cons]
          decide)
      (by decide)
    exact ⟨t, h1, by simpa using h2⟩
  · exact flow_table_capacity.2.1 ⟨true, false, false⟩ keyB []
      (List.replicate MAX_FLOWS entryA) rfl
      (lookup_replicate_entryA_keyB MAX_FLOWS)
      (by simp [List.length_replicate])
  · exact flow_table_capacity.2.2 [TableOp.flush, TableOp.del keyA] []
      (by decide)

/-! ## Port-set lemmas -/

theorem find?_isSome_append {α : Type} (q : α → Bool) (l1 l2 : List α)
    (h : (l1.find? q).isSome) : ((l1 ++ l2).find? q).isSome := by
  rw [List.find?_append]
  cases hf : l1.find? q with
  | some x => simp
  | none => rw [hf] at h; simp at h

theorem find?_isSome_eraseP {α : Type} (q p : α → Bool)
    (hqp : ∀ x, q x = true → p x = false) :
    ∀ l : List α, (l.find? q).isSome → ((l.eraseP p).find? q).isSome
  | [] => by simp
  | x :: l => by
      intro h
      by_cases hpx : p x = true
      · rw [List.eraseP_cons_of_pos hpx]
        have hqx : q x = false := by
          by_cases hq : q x = true
          · exact absurd (hqp x hq) (by simp [hpx])
          · simpa using hq
        rw [List.find?_cons_of_neg _ (by simp [hqx])] at h
        exact h
      · rw [List.eraseP_cons_of_neg hpx]
        by_cases hqx : q x = true
        · rw [List.find?_cons_of_pos _ hqx]
          simp
        · rw [List.find?_cons_of_neg _ hqx] at h ⊢
          exact find?_isSome_eraseP q p hqp l h

theorem do_add_port_ok_ports (dp : DpNetdev) (devname type : String)
    (port_no : Nat) (devErr : Option DpErr) (dp2 : DpNetdev)
    (h : do_add_port dp devname type port_no devErr = .ok dp2) :
    ∃ p, dp2.ports = dp.ports ++ [p] := by
  unfold do_add_port at h
  split at h
  · split at h
    · simp at h
    · simp only [Except.ok.injEq] at h
      exact ⟨_, by rw [← h]⟩
  · split at h
    · split at h
      · simp at h
      · simp only [Except.ok.injEq] at h
        exact ⟨_, by rw [← h]⟩
    · simp at h

theorem applyPortOp_local (dp : DpNetdev) (op : PortOp)
    (h : hasLocalPort dp = true) : hasLocalPort (applyPortOp dp op) = true := by
  cases op with
  | add devname type devErr =>
      simp only [applyPortOp]
      cases hp : dpif_netdev_port_add dp devname type devErr with
      | ok pair =>
          obtain ⟨dp2, n⟩ := pair
          show hasLocalPort dp2 = true
          unfold dpif_netdev_port_add at hp
          split at hp
          · cases hda : do_add_port dp devname type _ devErr with
            | ok dp3 =>
                rw [hda] at hp
                simp only [Except.map, Except.ok.injEq, Prod.mk.injEq] at hp
                obtain ⟨p, hports⟩ := do_add_port_ok_ports dp devname type _
                  devErr dp3 hda
                rw [← hp.1]
                unfold hasLocalPort at h ⊢
                rw [hports]
                exact find?_isSome_append _ dp.ports [p] h
            | error e =>
                rw [hda] at hp
                simp [Except.map] at hp
          · simp at hp
      | error e => exact h
  | del port_no =>
      simp only [applyPortOp]
      cases hp : dpif_netdev_port_del dp port_no with
      | ok dp2 =>
          show hasLocalPort dp2 = true
          unfold dpif_netdev_port_del at hp
          split_ifs at hp with h0
          have hne : port_no ≠ OVSP_LOCAL := by simpa using h0
          unfold do_del_port at hp
          split at hp
          · simp at hp
          · simp only [Except.ok.injEq] at hp
            rw [← hp]
            unfold hasLocalPort at h ⊢
            refine find?_isSome_eraseP _ _ ?_ dp.ports h
            intro x hx
            have hx0 : x.port_no = OVSP_LOCAL := by simpa using hx
            simp [hx0]
            omega
      | error e => exact h

theorem create_dp_netdev_none (name : String) :
    create_dp_netdev name none =
      .ok { name := name, open_cnt := 0, destroyed := false,
            queues := List.replicate N_QUEUES emptyQueue, flow_table := [],
            n_hit := 0, n_missed := 0, n_lost := 0,
            ports := [{ port_no := OVSP_LOCAL, netdev := name,
                        internal := true }],
            serial := 1 } := rfl

theorem create_dp_netdev_devErr (name : String) (e : DpErr) :
    create_dp_netdev name (some e) = .error e := rfl

/-- C9: the local internal port (`OVSP_LOCAL`, number 0, added by
`create_dp_netdev`) can never be removed through `dpif_netdev_port_del`,
which fails with `EINVAL` (InvalidArgument) for that number without touching
the port set; a successfully created datapath contains its local port, and
every sequence of port add/delete operations preserves its presence. -/
theorem local_port_invariant :
    (∀ dp : DpNetdev, dpif_netdev_port_del dp OVSP_LOCAL = .error .EINVAL) ∧
    (∀ (name : String) (devErr : Option DpErr) (dp : DpNetdev),
      create_dp_netdev name devErr = .ok dp → hasLocalPort dp = true) ∧
    (∀ (ops : List PortOp) (dp : DpNetdev), hasLocalPort dp = true →
      hasLocalPort (applyPortOps ops dp) = true) := by
  refine ⟨fun dp => rfl, ?_, ?_⟩
  · intro name devErr dp h
    cases devErr with
    | some e => rw [create_dp_netdev_devErr name e] at h; cases h
    | none =>
        rw [create_dp_netdev_none name] at h
        simp only [Except.ok.injEq] at h
        rw [← h]
        simp [hasLocalPort, OVSP_LOCAL]
  · intro ops
    induction ops with
    | nil => intro dp h; simpa [applyPortOps] using h
    | cons op rest ih =>
        intro dp h
        have h1 := applyPortOp_local dp op h
        simpa [applyPortOps] using ih (applyPortOp dp op) h1

/-- Witness for C9: the local-port guard, a concrete successful creation and
a concrete operation sequence on a concrete datapath with a local port. -/
theorem local_port_invariant_witness :
    dpif_netdev_port_del dpLocal OVSP_LOCAL = .error .EINVAL ∧
    (∃ dp, create_dp_netdev "dp0" none = .ok dp ∧ hasLocalPort dp = true) ∧
    hasLocalPort (applyPortOps [PortOp.del 5, PortOp.add "eth0" "system" none]
      dpLocal) = true := by
  refine ⟨local_port_invariant.1 dpLocal, ?_, ?_⟩
  · cases hc : create_dp_netdev "dp0" none with
    | ok dp => exact ⟨dp, rfl, local_port_invariant.2.1 "dp0" none dp hc⟩
    | error e => simp [create_dp_netdev, do_add_port] at hc
  · exact local_port_invariant.2.2 [PortOp.del 5, PortOp.add "eth0" "system" none]
      dpLocal (by decide)

/-! ## Upcall-queue lemmas -/

theorem queue_slot_ne (h t k : Nat) (hh : h < 2 ^ 32) (ht : t < 2 ^ 32)
    (hlt : u32sub h t < MAX_QUEUE_LEN) (hk : k < u32sub h t) :
    ((t + k) % 2 ^ 32) &&& QUEUE_MASK ≠ h &&& QUEUE_MASK := by
  have hqm : QUEUE_MASK = 127 := rfl
  rw [hqm, land_127_eq_mod, land_127_eq_mod]
  simp only [u32sub, MAX_QUEUE_LEN] at hlt hk
  omega

/-- C8: enqueueing onto a ring that already holds `MAX_QUEUE_LEN = 128`
pending records fails with `ENOBUFS` (QueueFull), increments the datapath's
lost counter by one and leaves every queue (contents, head and tail)
unchanged; on a non-full ring the enqueue succeeds, stores the new record at
slot `head & QUEUE_MASK`, advances `head` by one, leaves `tail` and the lost
counter alone, and no pending record's slot is overwritten. -/
theorem dp_netdev_output_userspace_bounded (dp : DpNetdev)
    (packet : List Nat) (queue_no : Nat) (flow : Flow) (arg : Nat) :
    (∀ q : DpNetdevQueue, dp.queues.getD queue_no emptyQueue = q →
      u32sub q.head q.tail = MAX_QUEUE_LEN →
      dp_netdev_output_userspace dp packet queue_no flow arg =
        (some .ENOBUFS, { dp with n_lost := dp.n_lost + 1 })) ∧
    (∀ q : DpNetdevQueue, dp.queues.getD queue_no emptyQueue = q →
      u32sub q.head q.tail < MAX_QUEUE_LEN → q.head < 2 ^ 32 →
      q.tail < 2 ^ 32 →
      ∃ q2 : DpNetdevQueue,
        dp_netdev_output_userspace dp packet queue_no flow arg =
          (none, { dp with queues := dp.queues.set queue_no q2 }) ∧
        q2.upcalls = q.upcalls.set (q.head &&& QUEUE_MASK)
          (some { type := queue_no, packet := packet, key := flow,
                  userdata := arg }) ∧
        q2.head = (q.head + 1) % 2 ^ 32 ∧
        q2.tail = q.tail ∧
        (∀ k, k < u32sub q.head q.tail →
          q2.upcalls.getD (((q.tail + k) % 2 ^ 32) &&& QUEUE_MASK) none =
          q.upcalls.getD (((q.tail + k) % 2 ^ 32) &&& QUEUE_MASK) none)) := by
  constructor
  · intro q hq hfull
    simp only [dp_netdev_output_userspace, hq]
    rw [if_pos (by omega)]
  · intro q hq hlt hh ht
    refine ⟨{ q with
      upcalls := q.upcalls.set (q.head &&& QUEUE_MASK)
        (some { type := queue_no, packet := packet, key := flow,
                userdata := arg })
      head := (q.head + 1) % 2 ^ 32 }, ?_, rfl, rfl, rfl, ?_⟩
    · simp only [dp_netdev_output_userspace, hq]
      rw [if_neg (by omega)]
    · intro k hk
      have hne : ((q.tail + k) % 2 ^ 32) &&& QUEUE_MASK ≠
          q.head &&& QUEUE_MASK :=
        queue_slot_ne q.head q.tail k hh ht hlt hk
      simp only [List.getD, List.get?_eq_getElem?]
      rw [List.getElem?_set_ne (Ne.symm hne)]

/-- Witness for C8 at a concrete full queue and a concrete empty queue. -/
theorem dp_netdev_output_userspace_bounded_witness :
    dp_netdev_output_userspace dpQFull [3] 0 zeroFlow 7 =
      (some .ENOBUFS, { dpQFull with n_lost := dpQFull.n_lost + 1 }) ∧
    (∃ q2, dp_netdev_output_userspace sampleDp [4] 0 zeroFlow 9 =
        (none, { sampleDp with queues := sampleDp.queues.set 0 q2 }) ∧
      q2.head = 1) := by
  constructor
  · exact (dp_netdev_output_userspace_bounded dpQFull [3] 0 zeroFlow 7).1
      fullQueue rfl (by decide)
  · obtain ⟨q2, h1, _, h3, _, _⟩ :=
      (dp_netdev_output_userspace_bounded sampleDp [4] 0 zeroFlow 9).2
        emptyQueue rfl (by decide) (by decide) (by decide)
    refine ⟨q2, h1, ?_⟩
    rw [h3]
    decide

/-! ## IPv6 later-fragment lemmas -/

theorem parse_ipv6_loop_later_frag (b : List Nat) (nexthdr : Nat)
    (flow : Flow) (hw : walkFindsLaterFrag nexthdr b = true) :
    ∃ rest, parse_ipv6_loop nexthdr flow b =
      ({ flow with nw_frag := FLOW_NW_FRAG_ANY ||| FLOW_NW_FRAG_LATER,
                   nw_proto := IPPROTO_FRAGMENT }, some rest) := by
  rw [walkFindsLaterFrag] at hw
  rw [parse_ipv6_loop]
  split_ifs at hw ⊢ with h1 h2 h3 h4 h5
  · simp at hw
    obtain ⟨hle, hw2⟩ := hw
    have hni : ¬b.length < (byte b 1 + 1) * 8 := by omega
    simp only [hni, if_false]
    exact parse_ipv6_loop_later_frag (b.drop ((byte b 1 + 1) * 8)) (byte b 0)
      flow hw2
  · simp at hw
    obtain ⟨hle, hw2⟩ := hw
    have hni : ¬b.length < (byte b 1 + 2) * 4 := by omega
    simp only [hni, if_false]
    exact parse_ipv6_loop_later_frag (b.drop ((byte b 1 + 2) * 4)) (byte b 0)
      flow hw2
  · exact ⟨b.drop 8, rfl⟩
  · obtain ⟨rest, hres⟩ := parse_ipv6_loop_later_frag (b.drop 8) (byte b 0)
      { flow with nw_frag := FLOW_NW_FRAG_ANY } hw
    exact ⟨rest, hres⟩
termination_by b.length
decreasing_by
  all_goals simp only [List.length_drop]
  all_goals omega

theorem parse_ipv6_later_frag (b : List Nat) (flow : Flow)
    (hlen : 40 ≤ b.length)
    (hw : walkFindsLaterFrag (byte b 6) (b.drop 40) = true) :
    ∃ rest f2, parse_ipv6 b flow = (f2, some rest) ∧
      f2.nw_frag = FLOW_NW_FRAG_ANY ||| FLOW_NW_FRAG_LATER ∧
      f2.nw_proto = IPPROTO_FRAGMENT ∧
      f2.tp_src = flow.tp_src ∧ f2.tp_dst = flow.tp_dst := by
  rw [parse_ipv6, if_neg (by omega)]
  obtain ⟨rest, hres⟩ := parse_ipv6_loop_later_frag (b.drop 40) (byte b 6)
    { flow with
      ipv6_src := (b.drop 8).take 16
      ipv6_dst := (b.drop 24).take 16
      nw_tos := (be32 (byte b 0) (byte b 1) (byte b 2) (byte b 3) >>> 20) % 256
      ipv6_label := be32 (byte b 0) (byte b 1) (byte b 2) (byte b 3) &&& 0xfffff
      nw_ttl := byte b 7
      nw_proto := IPPROTO_NONE } hw
  exact ⟨rest, _, hres, rfl, rfl, rfl, rfl⟩

/-- The flow value `flow_extract` has built just before dispatching on the
Ethernet type, for an untagged packet (proof abbreviation). -/
def ethFlow (priority tun_id in_port : Nat) (ddst dsrc : List Nat)
    (dlt : Nat) : Flow :=
  { zeroFlow with
    tun_id := tun_id
    in_port := in_port
    priority := priority
    dl_dst := ddst
    dl_src := dsrc
    dl_type := dlt }

theorem flow_extract_ipv6_branch_later (packet b : List Nat) (flow : Flow)
    (l3 : Nat) (hlen : 40 ≤ b.length)
    (hw : walkFindsLaterFrag (byte b 6) (b.drop 40) = true) :
    (flow_extract_ipv6 packet b flow l3).flow.nw_frag =
      (FLOW_NW_FRAG_ANY ||| FLOW_NW_FRAG_LATER) ∧
    (flow_extract_ipv6 packet b flow l3).flow.nw_proto = IPPROTO_FRAGMENT ∧
    (flow_extract_ipv6 packet b flow l3).flow.tp_src = flow.tp_src ∧
    (flow_extract_ipv6 packet b flow l3).flow.tp_dst = flow.tp_dst ∧
    (flow_extract_ipv6 packet b flow l3).l7 = none := by
  obtain ⟨rest, f2, hp, hfrag, hproto, htps, htpd⟩ :=
    parse_ipv6_later_frag b flow hlen hw
  unfold flow_extract_ipv6
  rw [hp]
  dsimp only []
  rw [if_neg (by rw [hproto]; decide), if_neg (by rw [hproto]; decide),
    if_neg (by rw [hproto]; decide)]
  exact ⟨hfrag, hproto, htps, htpd, rfl⟩

theorem parse_ethertype_big (e0 e1 : Nat) (rest : List Nat)
    (h : be16 e0 e1 ≥ ETH_TYPE_MIN) :
    parse_ethertype (e0 :: e1 :: rest) = (be16 e0 e1, rest) := by
  unfold parse_ethertype
  rw [show byte (e0 :: e1 :: rest) 0 = e0 from rfl,
      show byte (e0 :: e1 :: rest) 1 = e1 from rfl,
      show (e0 :: e1 :: rest).drop 2 = rest from rfl]
  simp only []
  rw [if_pos h]

set_option maxRecDepth 8192 in
/-- C6: for an untagged IPv6 packet whose extension-header chain reaches a
fragment header with nonzero offset (a later fragment), `flow_extract` sets
both fragment flags (`FLOW_NW_FRAG_ANY ||| FLOW_NW_FRAG_LATER`), stops the
walk leaving `nw_proto = IPPROTO_FRAGMENT` (44) instead of the upper-layer
protocol, performs no TCP/UDP/ICMPv6 parsing (`l7` stays unset), and leaves
the transport-port fields zero. -/
theorem flow_extract_ipv6_later_fragment
    (d0 d1 d2 d3 d4 d5 s0 s1 s2 s3 s4 s5 : Nat) (ip6 : List Nat)
    (priority tun_id in_port : Nat) (hlen : 40 ≤ ip6.length)
    (hw : walkFindsLaterFrag (byte ip6 6) (ip6.drop 40) = true) :
    ∀ r : ExtractResult,
      r = flow_extract (d0 :: d1 :: d2 :: d3 :: d4 :: d5 :: s0 :: s1 :: s2 ::
        s3 :: s4 :: s5 :: 0x86 :: 0xdd :: ip6) priority tun_id in_port →
      r.flow.nw_frag = (FLOW_NW_FRAG_ANY ||| FLOW_NW_FRAG_LATER) ∧
      r.flow.nw_proto = IPPROTO_FRAGMENT ∧
      r.flow.tp_src = 0 ∧ r.flow.tp_dst = 0 ∧ r.l7 = none := by
  intro r hr
  have hP14 : ¬((d0 :: d1 :: d2 :: d3 :: d4 :: d5 :: s0 :: s1 :: s2 :: s3 ::
      s4 :: s5 :: 0x86 :: 0xdd :: ip6).length < ETH_HEADER_LEN) := by
    simp only [List.length_cons, ETH_HEADER_LEN]
    omega
  have hvlanP : ¬((byte (d0 :: d1 :: d2 :: d3 :: d4 :: d5 :: s0 :: s1 :: s2 ::
      s3 :: s4 :: s5 :: 0x86 :: 0xdd :: ip6) 12 == 0x81 &&
      byte (d0 :: d1 :: d2 :: d3 :: d4 :: d5 :: s0 :: s1 :: s2 :: s3 :: s4 ::
      s5 :: 0x86 :: 0xdd :: ip6) 13 == 0x00) = true) := by
    rw [show byte (d0 :: d1 :: d2 :: d3 :: d4 :: d5 :: s0 :: s1 :: s2 ::
      s3 :: s4 :: s5 :: 0x86 :: 0xdd :: ip6) 12 = 0x86 from rfl,
      show ((0x86 : Nat) == 0x81) = false from rfl, Bool.false_and]
    exact Bool.false_ne_true
  have hpe : parse_ethertype ((d0 :: d1 :: d2 :: d3 :: d4 :: d5 :: s0 :: s1 ::
      s2 :: s3 :: s4 :: s5 :: 0x86 :: 0xdd :: ip6).drop 12) =
      (34525, ip6) := by
    rw [show ((d0 :: d1 :: d2 :: d3 :: d4 :: d5 :: s0 :: s1 :: s2 :: s3 ::
      s4 :: s5 :: 0x86 :: 0xdd :: ip6).drop 12) = 0x86 :: 0xdd :: ip6 from
      rfl]
    rw [parse_ethertype_big 0x86 0xdd ip6 (by decide)]
    rw [show be16 0x86 0xdd = 34525 from rfl]
  simp only [flow_extract] at hr
  rw [if_neg hP14, if_neg hvlanP] at hr
  dsimp only [] at hr
  rw [hpe] at hr
  dsimp only [] at hr
  rw [if_neg (by decide), if_pos (by decide)] at hr
  subst hr
  exact ⟨(flow_extract_ipv6_branch_later _ ip6 _ _ hlen hw).1,
    (flow_extract_ipv6_branch_later _ ip6 _ _ hlen hw).2.1,
    ((flow_extract_ipv6_branch_later _ ip6 _ _ hlen hw).2.2.1).trans rfl,
    ((flow_extract_ipv6_branch_later _ ip6 _ _ hlen hw).2.2.2.1).trans rfl,
    (flow_extract_ipv6_branch_later _ ip6 _ _ hlen hw).2.2.2.2⟩

/-- A concrete 48-byte IPv6 payload: 40-byte base header whose next-header
field (byte 6) is IPPROTO_FRAGMENT (44), followed by an 8-byte fragment
extension header whose offset field is nonzero (a later fragment). -/
def laterFragIP6 : List Nat :=
  [0x60, 0, 0, 0, 0, 8, 44, 64,
   0, 0, 0, 0, 0, 0, 0, 0, 0, 0, 0, 0, 0, 0, 0, 0,
   0, 0, 0, 0, 0, 0, 0, 0, 0, 0, 0, 0, 0, 0, 0, 1,
   6, 0, 0, 8, 0, 0, 0, 0]

/-- Witness for C6 at a concrete untagged Ethernet/IPv6 later-fragment
packet. -/
theorem flow_extract_ipv6_later_fragment_witness :
    (flow_extract (1 :: 2 :: 3 :: 4 :: 5 :: 6 :: 7 :: 8 :: 9 :: 10 :: 11 ::
        12 :: 0x86 :: 0xdd :: laterFragIP6) 0 0 0).flow.nw_frag =
      (FLOW_NW_FRAG_ANY ||| FLOW_NW_FRAG_LATER) ∧
    (flow_extract (1 :: 2 :: 3 :: 4 :: 5 :: 6 :: 7 :: 8 :: 9 :: 10 :: 11 ::
        12 :: 0x86 :: 0xdd :: laterFragIP6) 0 0 0).flow.nw_proto =
      IPPROTO_FRAGMENT ∧
    (flow_extract (1 :: 2 :: 3 :: 4 :: 5 :: 6 :: 7 :: 8 :: 9 :: 10 :: 11 ::
        12 :: 0x86 :: 0xdd :: laterFragIP6) 0 0 0).flow.tp_src = 0 ∧
    (flow_extract (1 :: 2 :: 3 :: 4 :: 5 :: 6 :: 7 :: 8 :: 9 :: 10 :: 11 ::
        12 :: 0x86 :: 0xdd :: laterFragIP6) 0 0 0).flow.tp_dst = 0 ∧
    (flow_extract (1 :: 2 :: 3 :: 4 :: 5 :: 6 :: 7 :: 8 :: 9 :: 10 :: 11 ::
        12 :: 0x86 :: 0xdd :: laterFragIP6) 0 0 0).l7 = none :=
  flow_extract_ipv6_later_fragment 1 2 3 4 5 6 7 8 9 10 11 12 laterFragIP6
    0 0 0 (by decide) (by unfold walkFindsLaterFrag; decide) _ rfl

end OVS